import Mathlib

/-!
Verification development for the pi-acp session runtime and
process-management layer: a shallow embedding, in Lean, of the pending
prompt state machine (core/runtime/runtime.ts), the session manager
(core/session/manager.ts), the subprocess line wrapper PiProcess
(pi/process.ts), the tool handler (core/tools/session-tools.ts) and the
transcript fork helper (core/session/metadata.ts), together with
theorems about their behaviour.

File system reads are modelled as explicit functions of type
String to Option String; subprocess responses are modelled as explicit
inputs; promise resolve and reject callbacks are modelled by recording
the outcome values in the state.
-/

namespace PiAcp

/-- Association list lookup with string keys, modelling Map.get. -/
def alookup {α : Type} : List (String × α) → String → Option α
  | [], _ => none
  | (k₁, v) :: rest, k => if k₁ = k then some v else alookup rest k

/-- Association list deletion, modelling Map.delete. Keys of a Map are
unique, so removing every pair with the key agrees with Map semantics. -/
def aerase {α : Type} (xs : List (String × α)) (k : String) : List (String × α) :=
  xs.filter (fun p => p.1 ≠ k)

/-- Association list insert-or-replace, modelling Map.set. -/
def aset {α : Type} : List (String × α) → String → α → List (String × α)
  | [], k, v => [(k, v)]
  | (k₁, v₁) :: rest, k, v =>
      if k₁ = k then (k₁, v) :: rest else (k₁, v₁) :: aset rest k v

theorem alookup_aerase_self {α : Type} (xs : List (String × α)) (k : String) :
    alookup (aerase xs k) k = none := by
  induction xs with
  | nil => simp [alookup, aerase]
  | cons hd tl ih =>
      obtain ⟨k₁, v⟩ := hd
      by_cases h : k₁ = k
      · simpa [aerase, h] using ih
      · simpa [aerase, alookup, h] using ih

theorem alookup_aerase_ne {α : Type} (xs : List (String × α)) (k k₂ : String)
    (hne : k₂ ≠ k) : alookup (aerase xs k) k₂ = alookup xs k₂ := by
  induction xs with
  | nil => simp [alookup, aerase]
  | cons hd tl ih =>
      obtain ⟨k₁, v⟩ := hd
      by_cases h : k₁ = k
      · subst h
        have h₂ : ¬ k₁ = k₂ := fun hc => hne hc.symm
        simpa [aerase, alookup, h₂] using ih
      · by_cases h₂ : k₁ = k₂
        · simp [aerase, alookup, h, h₂, hne]
        · simpa [aerase, alookup, h, h₂] using ih

theorem alookup_aset_self {α : Type} (xs : List (String × α)) (k : String) (v : α) :
    alookup (aset xs k v) k = some v := by
  induction xs with
  | nil => simp [alookup, aset]
  | cons hd tl ih =>
      obtain ⟨k₁, v₁⟩ := hd
      by_cases h : k₁ = k
      · simp [aset, alookup, h]
      · simpa [aset, alookup, h] using ih

theorem alookup_aset_ne {α : Type} (xs : List (String × α)) (k k₂ : String) (v : α)
    (hne : k₂ ≠ k) : alookup (aset xs k v) k₂ = alookup xs k₂ := by
  induction xs with
  | nil =>
      have h : ¬ k = k₂ := fun hc => hne hc.symm
      simp [alookup, aset, h]
  | cons hd tl ih =>
      obtain ⟨k₁, v₁⟩ := hd
      by_cases h : k₁ = k
      · subst h
        have h₂ : ¬ k₁ = k₂ := fun hc => hne hc.symm
        simp [aset, alookup, h₂]
      · by_cases h₂ : k₁ = k₂
        · simp [aset, alookup, h, h₂, hne]
        · simpa [aset, alookup, h, h₂] using ih

/-! ## Stop reasons (core/runtime/runtime.ts) -/

/-- ACP StopReason values produced by this adapter. -/
inductive StopReason where
  | end_turn
  | max_tokens
  | cancelled
  deriving DecidableEq, Repr

/-- STOP_REASON_MAP from core/runtime/runtime.ts: the fixed lookup table
from pi stop reasons to ACP stop reasons. -/
def STOP_REASON_MAP (reason : String) : Option StopReason :=
  if reason = "stop" then some .end_turn
  else if reason = "length" then some .max_tokens
  else if reason = "aborted" then some .cancelled
  else if reason = "toolUse" then some .end_turn
  else none

/-- SessionRuntime.mapStopReason: looks up the reason when present and
falls back to end_turn for a missing or unrecognized value. -/
def mapStopReason (reason : Option String) : StopReason :=
  match reason with
  | some r => (STOP_REASON_MAP r).getD .end_turn
  | none => .end_turn

/-! ## Subprocess lines (pi/types.ts) -/

/-- A response line from the pi subprocess: type "response" with a
success flag, an optional correlation id and an optional error text. -/
structure PiResponse where
  id : Option String
  success : Bool
  error : Option String
  deriving DecidableEq, Repr

/-- Streaming assistant message events carried by message_update. -/
inductive AssistantMessageEvent where
  | text_delta (delta : String)
  | thinking_delta (delta : String)
  | otherKind
  deriving DecidableEq, Repr

/-- Tool arguments as consulted by the adapter: the file-path-like keys
checked by extractPathFromArgs, the command key checked for bash tools,
and the pretty-printed rendering used by the JSON.stringify fallback. -/
structure ToolArgs where
  file_path : Option String
  filePath : Option String
  path : Option String
  file : Option String
  command : Option String
  pretty : String
  deriving DecidableEq, Repr

/-- A tool result payload: the texts of its text content items (content
is optional on the wire) and the pretty-printed details payload when the
details object is present and nonempty. -/
structure ToolResult where
  content : Option (List String)
  details : Option String
  deriving DecidableEq, Repr

/-- One parsed line from the pi subprocess: a response or an event. -/
inductive PiLine where
  | response (r : PiResponse)
  | message_update (assistantMessageEvent : Option AssistantMessageEvent)
  | tool_execution_start (toolCallId : String) (toolName : String) (args : Option ToolArgs)
  | tool_execution_update (toolCallId : String) (partResult : Option ToolResult)
  | tool_execution_end (toolCallId : String) (toolName : String) (result : Option ToolResult) (isError : Bool)
  | turn_start
  | turn_end (stopReason : Option String)
  | agent_end
  | otherEvent (ty : String)
  deriving DecidableEq, Repr

/-! ## Line Process Wrapper PiProcess (pi/process.ts)

The wrapper state records, instead of invoking, its observable effects:
resolve and reject calls on pending request promises are appended to
`outcomes`, lines forwarded to registered line observers are appended to
`observed`, and payloads written to the subprocess stdin are appended to
`sent`. setTimeout timers are modelled by `activeTimers`; a timer id is
in the list exactly while its timeout is scheduled and not yet cleared. -/

/-- A pending request entry: the command type and the timeout used. -/
structure PendingEntry where
  cmdType : String
  timeoutMs : Nat
  deriving DecidableEq, Repr

/-- The settlement of one pending request promise. -/
inductive ReqOutcome where
  | fulfilled (response : PiResponse)
  | timedOut (message : String)
  deriving DecidableEq, Repr

/-- State of one PiProcess wrapper. -/
structure ProcState where
  requestCounter : Nat
  pendingRequests : List (String × PendingEntry)
  activeTimers : List String
  outcomes : List (String × ReqOutcome)
  observed : List PiLine
  sent : List (String × Option String)
  deriving DecidableEq, Repr

/-- The state of a freshly constructed PiProcess. -/
def initProcState : ProcState :=
  { requestCounter := 0, pendingRequests := [], activeTimers := [],
    outcomes := [], observed := [], sent := [] }

/-- The stdout line handler of PiProcess (pi/process.ts). A line that
fails to JSON-parse (modelled as `none`) is logged and dropped. A parsed
response whose id matches a pending request cancels the timeout, removes
the entry and resolves the promise with the response object; every
parsed line is then forwarded to all registered line observers. -/
def handleLine (st : ProcState) (line : Option PiLine) : ProcState :=
  match line with
  | none => st
  | some parsed =>
      let st₁ :=
        match parsed with
        | PiLine.response r =>
            match r.id with
            | some rid =>
                match alookup st.pendingRequests rid with
                | some _ =>
                    { st with
                      activeTimers := st.activeTimers.filter (fun t => t ≠ rid),
                      pendingRequests := aerase st.pendingRequests rid,
                      outcomes := st.outcomes ++ [(rid, ReqOutcome.fulfilled r)] }
                | none => st
            | none => st
        | _ => st
      { st₁ with observed := st₁.observed ++ [parsed] }

/-- PiProcess.request: assign the next process-unique correlation id,
send the payload, register the pending entry and schedule its timeout.
Returns the new state and the assigned correlation id. -/
def requestCmd (st : ProcState) (cmdType : String) (timeoutMs : Nat) : ProcState × String :=
  let rid := "req_" ++ toString (st.requestCounter + 1)
  ({ st with
      requestCounter := st.requestCounter + 1,
      sent := st.sent ++ [(cmdType, some rid)],
      pendingRequests := st.pendingRequests ++ [(rid, { cmdType := cmdType, timeoutMs := timeoutMs })],
      activeTimers := st.activeTimers ++ [rid] }, rid)

/-- The setTimeout callback registered by PiProcess.request for the
request `rid`, firing `timeoutMs` milliseconds after the request unless
the timer was cleared: it deletes the pending entry and rejects the
promise with a timeout error naming the command type captured by the
callback closure. -/
def fireTimeout (st : ProcState) (rid : String) (cmdType : String) : ProcState :=
  if rid ∈ st.activeTimers then
    { st with
      activeTimers := st.activeTimers.filter (fun t => t ≠ rid),
      pendingRequests := aerase st.pendingRequests rid,
      outcomes := st.outcomes ++ [(rid, ReqOutcome.timedOut ("Pi request timed out: " ++ cmdType))] }
  else st

/-- Process a sequence of stdout lines in arrival order. -/
def processLines (st : ProcState) : List (Option PiLine) → ProcState
  | [] => st
  | l :: ls => processLines (handleLine st l) ls

/-- The settlements recorded for one correlation id, in order. -/
def outcomesFor (st : ProcState) (rid : String) : List ReqOutcome :=
  (st.outcomes.filter (fun p => p.1 = rid)).map Prod.snd

/-- A line is a response correlated to `rid`. -/
def correlatesTo (line : Option PiLine) (rid : String) : Prop :=
  ∃ r, line = some (PiLine.response r) ∧ r.id = some rid

instance (line : Option PiLine) (rid : String) : Decidable (correlatesTo line rid) := by
  unfold correlatesTo
  match line with
  | none => exact .isFalse (by simp)
  | some (PiLine.response r) =>
      match h : r.id with
      | some rid₂ =>
          by_cases he : rid₂ = rid
          · exact .isTrue ⟨r, rfl, by rw [h, he]⟩
          · exact .isFalse (by simp_all)
      | none => exact .isFalse (by simp_all)
  | some (PiLine.message_update e) => exact .isFalse (by simp)
  | some (PiLine.tool_execution_start a b c) => exact .isFalse (by simp)
  | some (PiLine.tool_execution_update a b) => exact .isFalse (by simp)
  | some (PiLine.tool_execution_end a b c d) => exact .isFalse (by simp)
  | some PiLine.turn_start => exact .isFalse (by simp)
  | some (PiLine.turn_end s) => exact .isFalse (by simp)
  | some PiLine.agent_end => exact .isFalse (by simp)
  | some (PiLine.otherEvent t) => exact .isFalse (by simp)

theorem handleLine_uncorrelated (st : ProcState) (line : Option PiLine) (rid : String)
    (h : ¬ correlatesTo line rid) :
    alookup (handleLine st line).pendingRequests rid = alookup st.pendingRequests rid ∧
    (rid ∈ (handleLine st line).activeTimers ↔ rid ∈ st.activeTimers) ∧
    outcomesFor (handleLine st line) rid = outcomesFor st rid := by
  match line with
  | none => simp [handleLine]
  | some (PiLine.response r) =>
      match hid : r.id with
      | none => simp [handleLine, hid, outcomesFor]
      | some rid₂ =>
          have hne : rid₂ ≠ rid := by
            intro hc
            exact h ⟨r, rfl, by rw [hid, hc]⟩
          match hp : alookup st.pendingRequests rid₂ with
          | none => simp [handleLine, hid, hp, outcomesFor]
          | some e =>
              refine ⟨?_, ?_, ?_⟩
              · simp only [handleLine, hid, hp]
                exact alookup_aerase_ne st.pendingRequests rid₂ rid
                  (fun hc => hne hc.symm)
              · simp only [handleLine, hid, hp, List.mem_filter]
                constructor
                · intro hm
                  exact hm.1
                · intro hm
                  exact ⟨hm, by simpa using fun hc => hne hc.symm⟩
              · simp [handleLine, hid, hp, outcomesFor, List.filter_append, hne]
  | some (PiLine.message_update e) => simp [handleLine, outcomesFor]
  | some (PiLine.tool_execution_start a b c) => simp [handleLine, outcomesFor]
  | some (PiLine.tool_execution_update a b) => simp [handleLine, outcomesFor]
  | some (PiLine.tool_execution_end a b c d) => simp [handleLine, outcomesFor]
  | some PiLine.turn_start => simp [handleLine, outcomesFor]
  | some (PiLine.turn_end s) => simp [handleLine, outcomesFor]
  | some PiLine.agent_end => simp [handleLine, outcomesFor]
  | some (PiLine.otherEvent t) => simp [handleLine, outcomesFor]

theorem processLines_uncorrelated (ls : List (Option PiLine)) (st : ProcState) (rid : String)
    (h : ∀ l ∈ ls, ¬ correlatesTo l rid) :
    alookup (processLines st ls).pendingRequests rid = alookup st.pendingRequests rid ∧
    (rid ∈ (processLines st ls).activeTimers ↔ rid ∈ st.activeTimers) ∧
    outcomesFor (processLines st ls) rid = outcomesFor st rid := by
  induction ls generalizing st with
  | nil => simp [processLines]
  | cons l ls ih =>
      have h₁ := handleLine_uncorrelated st l rid (h l (by simp))
      have h₂ := ih (handleLine st l) (fun x hx => h x (by simp [hx]))
      refine ⟨h₂.1.trans h₁.1, h₂.2.1.trans h₁.2.1, h₂.2.2.trans h₁.2.2⟩

/-- A response line with success set to false, as the subprocess sends
after a failed command. -/
def c5failResp : PiResponse := { id := some "req_1", success := false, error := some "boom" }

/-- The wrapper state right after issuing one get_state request. -/
def c5oneRequest : ProcState := (requestCmd initProcState "get_state" 5000).1

/-- C5 counterexample: a response with success = false whose correlation
id matcheses the pending request is still settled by resolve (the promise
is fulfilled with the response object); the stdout handler of PiProcess
never rejects a pending request based on the success flag, refuting the
claim that it resolves or rejects according to that flag. -/
theorem c5_success_flag_counterexample :
    c5failResp.success = false ∧
    (handleLine c5oneRequest (some (PiLine.response c5failResp))).outcomes
      = [("req_1", ReqOutcome.fulfilled c5failResp)] := by
  exact ⟨rfl, rfl⟩

/-- C5 (amended): for every response line whose correlation id matches a
pending request, the wrapper cancels that request's timeout, removes it
from the pending map, resolves the request with the full response object
regardless of the success flag (the caller inspects the flag), and still
forwards the response to every registered line observer. -/
theorem c5_response_settlement (st : ProcState) (r : PiResponse) (rid : String)
    (e : PendingEntry) (hid : r.id = some rid)
    (hp : alookup st.pendingRequests rid = some e) :
    alookup (handleLine st (some (PiLine.response r))).pendingRequests rid = none ∧
    rid ∉ (handleLine st (some (PiLine.response r))).activeTimers ∧
    (handleLine st (some (PiLine.response r))).outcomes
      = st.outcomes ++ [(rid, ReqOutcome.fulfilled r)] ∧
    (handleLine st (some (PiLine.response r))).observed
      = st.observed ++ [PiLine.response r] := by
  obtain ⟨id₀, success₀, error₀⟩ := r
  obtain rfl : id₀ = some rid := hid
  refine ⟨?_, ?_, ?_, ?_⟩
  · simp only [handleLine, hp]
    exact alookup_aerase_self _ _
  · simp only [handleLine, hp]
    simp [List.mem_filter]
  · simp only [handleLine, hp]
  · simp only [handleLine, hp]

/-- C5 witness: the amended settlement behaviour at a concrete input,
the failed response against the one-request state. -/
theorem c5_response_settlement_witness :
    alookup (handleLine c5oneRequest (some (PiLine.response c5failResp))).pendingRequests
        "req_1" = none ∧
    "req_1" ∉ (handleLine c5oneRequest (some (PiLine.response c5failResp))).activeTimers ∧
    (handleLine c5oneRequest (some (PiLine.response c5failResp))).outcomes
      = c5oneRequest.outcomes ++ [("req_1", ReqOutcome.fulfilled c5failResp)] ∧
    (handleLine c5oneRequest (some (PiLine.response c5failResp))).observed
      = c5oneRequest.observed ++ [PiLine.response c5failResp] :=
  c5_response_settlement c5oneRequest c5failResp "req_1"
    { cmdType := "get_state", timeoutMs := 5000 } rfl rfl

/-- C7: a request issued with some timeout against a subprocess that
never sends a response with its correlation id is, when the timeout
fires, rejected with the timeout error exactly once, and its correlation
id is no longer in the pending map afterwards (no leak). -/
theorem c7_request_timeout (cmdType : String) (timeoutMs : Nat) (ls : List (Option PiLine))
    (h : ∀ l ∈ ls, ¬ correlatesTo l "req_1") :
    alookup (fireTimeout (processLines (requestCmd initProcState cmdType timeoutMs).1 ls)
        "req_1" cmdType).pendingRequests "req_1" = none ∧
    outcomesFor (fireTimeout (processLines (requestCmd initProcState cmdType timeoutMs).1 ls)
        "req_1" cmdType) "req_1"
      = [ReqOutcome.timedOut ("Pi request timed out: " ++ cmdType)] := by
  have h₀ := processLines_uncorrelated ls (requestCmd initProcState cmdType timeoutMs).1 "req_1" h
  have htimer : "req_1" ∈ (requestCmd initProcState cmdType timeoutMs).1.activeTimers := by
    simp only [requestCmd, initProcState, List.nil_append, List.mem_singleton]
    decide
  have hout : outcomesFor (requestCmd initProcState cmdType timeoutMs).1 "req_1" = [] := by
    simp [requestCmd, initProcState, outcomesFor]
  have h₁ : "req_1" ∈ (processLines (requestCmd initProcState cmdType timeoutMs).1 ls).activeTimers :=
    h₀.2.1.mpr htimer
  have h₂ : outcomesFor (processLines (requestCmd initProcState cmdType timeoutMs).1 ls) "req_1" = [] :=
    h₀.2.2.trans hout
  unfold fireTimeout
  rw [if_pos h₁]
  refine ⟨alookup_aerase_self _ _, ?_⟩
  simp only [outcomesFor, List.filter_append, List.map_append] at h₂ ⊢
  rw [h₂]
  simp

/-- Concrete stdout traffic for the C7 witness: an event line, a
response for a different correlation id, and a malformed line. -/
def c7lines : List (Option PiLine) :=
  [some PiLine.turn_start,
   some (PiLine.response { id := some "req_9", success := true, error := none }),
   none]

/-- C7 witness: the timeout rejection and pending-map cleanup at the
concrete 10ms get_state request against traffic that never answers it. -/
theorem c7_request_timeout_witness :
    alookup (fireTimeout (processLines (requestCmd initProcState "get_state" 10).1 c7lines)
        "req_1" "get_state").pendingRequests "req_1" = none ∧
    outcomesFor (fireTimeout (processLines (requestCmd initProcState "get_state" 10).1 c7lines)
        "req_1" "get_state") "req_1"
      = [ReqOutcome.timedOut ("Pi request timed out: " ++ "get_state")] :=
  c7_request_timeout "get_state" 10 c7lines (by decide)

/-- C6: the stop-reason mapping is a total deterministic function with
stop to end_turn, length to max_tokens, aborted to cancelled, toolUse to
end_turn, and every other or missing input to end_turn. -/
theorem c6_stop_reason_total :
    mapStopReason (some "stop") = StopReason.end_turn ∧
    mapStopReason (some "length") = StopReason.max_tokens ∧
    mapStopReason (some "aborted") = StopReason.cancelled ∧
    mapStopReason (some "toolUse") = StopReason.end_turn ∧
    mapStopReason none = StopReason.end_turn ∧
    ∀ s : String, s ≠ "stop" → s ≠ "length" → s ≠ "aborted" → s ≠ "toolUse" →
      mapStopReason (some s) = StopReason.end_turn := by
  refine ⟨rfl, rfl, rfl, rfl, rfl, ?_⟩
  intro s h₁ h₂ h₃ h₄
  simp [mapStopReason, STOP_REASON_MAP, h₁, h₂, h₃, h₄]

/-- C6 witness: the default branch of the mapping at a concrete
unrecognized stop reason. -/
theorem c6_stop_reason_total_witness :
    ("retry" ≠ "stop") ∧ mapStopReason (some "retry") = StopReason.end_turn :=
  ⟨by decide, c6_stop_reason_total.2.2.2.2.2 "retry" (by decide) (by decide)
    (by decide) (by decide)⟩

/-! ## Tool Call Tracker SessionToolHandler (core/tools/session-tools.ts) -/

/-- A captured pre-tool file snapshot: absolute-resolved path plus the
original text. -/
structure Snapshot where
  path : String
  oldText : String
  deriving DecidableEq, Repr

/-- The input record stored at tool start and consumed at tool end. -/
structure StoredInput where
  summary : Option String
  command : Option String
  locations : Option (List String)
  deriving DecidableEq, Repr

/-- One element of an outward tool-call content payload: a labelled text
section or a diff section. -/
inductive ToolCallContent where
  | contentText (text : String)
  | diff (path : String) (oldText : String) (newText : String)
  deriving DecidableEq, Repr

/-- An outward session update emitted by the runtime. -/
inductive SessionUpdateMsg where
  | toolCall (toolCallId : String) (title : String) (kind : String) (status : String)
      (locations : Option (List String)) (content : List ToolCallContent)
  | toolCallUpdate (toolCallId : String) (status : String) (content : List ToolCallContent)
  | chunk (kind : String) (text : String)
  deriving DecidableEq, Repr

/-- The content payload of an outward session update. -/
def msgContent : SessionUpdateMsg → List ToolCallContent
  | SessionUpdateMsg.toolCall _ _ _ _ _ c => c
  | SessionUpdateMsg.toolCallUpdate _ _ c => c
  | SessionUpdateMsg.chunk _ _ => []

/-- JavaScript string truthiness: a present, non-empty string. -/
def truthyStr (s : Option String) : Option String :=
  match s with
  | some t => if t = "" then none else some t
  | none => none

/-- Substring containment, modelling String.prototype.includes. -/
def strIncludes (s sub : String) : Bool :=
  (List.range (s.length + 1)).any (fun i => sub.toList.isPrefixOf (s.toList.drop i))

/-- SessionToolHandler.mapToolKind: classify the tool kind by
case-insensitive substring match against the tool name. -/
def mapToolKind (toolName : String) : String :=
  let normalized := toolName.toLower
  if strIncludes normalized "read" then "read"
  else if strIncludes normalized "edit" then "edit"
  else if strIncludes normalized "search" then "search"
  else if strIncludes normalized "fetch" || strIncludes normalized "http" then "fetch"
  else if strIncludes normalized "delete" then "delete"
  else if strIncludes normalized "bash" || strIncludes normalized "exec" then "execute"
  else "other"

/-- SessionToolHandler.extractToolContent: join the texts of the text
content items, or undefined when the result has no content field. -/
def extractToolContent (result : Option ToolResult) : Option String :=
  match result with
  | none => none
  | some r =>
      match r.content with
      | none => none
      | some texts => some (String.intercalate "\n" texts)

/-- SessionToolHandler.formatToolDetails applied to the details of an
optional result: the pretty-printed details payload when present and
nonempty (ToolResult.details already models that rendering). -/
def formatToolDetails (result : Option ToolResult) : Option String :=
  match result with
  | none => none
  | some r => r.details

/-- SessionToolHandler.extractPathFromArgs: the first string among the
argument keys file_path, filePath, path, file. -/
def extractPathFromArgs (args : Option ToolArgs) : Option String :=
  match args with
  | none => none
  | some a =>
      match a.file_path with
      | some p => some p
      | none =>
          match a.filePath with
          | some p => some p
          | none =>
              match a.path with
              | some p => some p
              | none => a.file

/-- SessionToolHandler.extractLocations: the extracted path as a
singleton list, when present. -/
def extractLocations (args : Option ToolArgs) : Option (List String) :=
  match extractPathFromArgs args with
  | some p => some [p]
  | none => none

/-- SessionToolHandler.formatToolInput: for a bash tool with a string
command argument, surface the literal command; otherwise fall back to
the pretty-printed argument dump, or to the bare tool name when the
arguments are absent. Returns (summary, command). -/
def formatToolInput (toolName : String) (args : Option ToolArgs) :
    Option String × Option String :=
  match args with
  | some a =>
      if toolName.toLower = "bash" then
        match a.command with
        | some c => (some ("Command: " ++ c), some c)
        | none => (some a.pretty, none)
      else (some a.pretty, none)
  | none => (some toolName, none)

/-- SessionToolHandler.buildToolCallContent: concatenate the captured
command (or else the input summary), the output text and the details
text as labelled sections; an empty section list yields no content. -/
def buildToolCallContent (inputSummary outputText detailsText command : Option String) :
    List ToolCallContent :=
  let first : List String :=
    match truthyStr command with
    | some c => ["Command:\n" ++ c]
    | none =>
        match truthyStr inputSummary with
        | some i => ["Input:\n" ++ i]
        | none => []
  let out : List String :=
    match truthyStr outputText with
    | some o => ["Output:\n" ++ o]
    | none => []
  let det : List String :=
    match truthyStr detailsText with
    | some d => ["Details:\n" ++ d]
    | none => []
  let sections := first ++ out ++ det
  if sections = [] then []
  else [ToolCallContent.contentText (String.intercalate "\n\n" sections)]

/-- Resolution of a possibly relative path against the session working
directory, modelling nodePath.resolve for the paths the adapter builds. -/
def resolvePath (cwd filePath : String) : String :=
  if filePath.startsWith "/" then filePath else cwd ++ "/" ++ filePath

/-- SessionToolHandler.snapshotFile: resolve the path, attempt to read
the file (the read is the function `fs`; `none` models a failed read,
which is skipped silently) and retain the snapshot keyed by tool-call
id. -/
def snapshotFile (fs : String → Option String) (snaps : List (String × Snapshot))
    (cwd toolCallId filePath : String) : List (String × Snapshot) :=
  let absolutePath := resolvePath cwd filePath
  match fs absolutePath with
  | some oldText => aset snaps toolCallId { path := absolutePath, oldText := oldText }
  | none => snaps

/-- SessionToolHandler.buildDiffContent: consume the snapshot for the
id if any; re-read the file; only when the re-read succeeds and the
content differs from the snapshot, produce a diff payload. The snapshot
entry is deleted before the re-read, so it is gone in every case. -/
def buildDiffContent (fs : String → Option String) (snaps : List (String × Snapshot))
    (toolCallId : String) : List (String × Snapshot) × Option ToolCallContent :=
  match alookup snaps toolCallId with
  | none => (snaps, none)
  | some snapshot =>
      let snaps₂ := aerase snaps toolCallId
      match fs snapshot.path with
      | none => (snaps₂, none)
      | some newText =>
          if snapshot.oldText = newText then (snaps₂, none)
          else (snaps₂, some (ToolCallContent.diff snapshot.path snapshot.oldText newText))

/-! ## Session state (core/session/types.ts)

The pi subprocess handle is modelled by recording the commands written
to it in `sent`; the pendingPrompt resolve and reject callbacks are
modelled by recording, in order, the stop reasons passed to resolve in
`resolutions` and the error messages passed to reject in `rejections`.
A session whose pendingPrompt slot is empty has pendingPrompt = false. -/

/-- A model descriptor (PiModel in core/session/types.ts). -/
structure PiModel where
  id : String
  name : String
  provider : String
  reasoning : Bool
  deriving DecidableEq, Repr

/-- A command written to the subprocess stdin. -/
inductive PiCommand where
  | abort
  | promptMsg (message : String) (imageCount : Nat)
  | switch_session (sessionPath : String)
  | set_model (provider : String) (modelId : String)
  | set_thinking_level (level : String)
  | set_steering_mode (mode : String)
  | set_follow_up_mode (mode : String)
  | set_auto_compaction (enabled : Bool)
  | set_auto_retry (enabled : Bool)
  | otherCmd (ty : String)
  deriving DecidableEq, Repr

/-- Per-session state (SessionState in core/session/types.ts). -/
structure SessionState where
  id : String
  cwd : String
  title : Option String
  sessionFile : Option String
  pendingPrompt : Bool
  resolutions : List StopReason
  rejections : List String
  toolCallInputs : List (String × StoredInput)
  toolCallSnapshots : List (String × Snapshot)
  modelMap : List (String × PiModel)
  sent : List PiCommand
  deriving DecidableEq, Repr

/-- createSessionState (core/config/config.ts): a fresh session bound to
a working directory, with empty maps and no pending prompt. -/
def initSessionState (sessionId cwd : String) : SessionState :=
  { id := sessionId, cwd := cwd, title := none, sessionFile := none,
    pendingPrompt := false, resolutions := [], rejections := [],
    toolCallInputs := [], toolCallSnapshots := [], modelMap := [], sent := [] }

/-- SessionToolHandler.handleStart: store the formatted input, emit a
tool_call creation payload, and snapshot the referenced file if the
arguments carry a path (the file read is `fs`). -/
def handleStart (fs : String → Option String) (s : SessionState)
    (toolCallId toolName : String) (args : Option ToolArgs) :
    SessionState × SessionUpdateMsg :=
  let inputSummary := formatToolInput toolName args
  let locations := extractLocations args
  let inputs₂ := aset s.toolCallInputs toolCallId
      { summary := inputSummary.1, command := inputSummary.2, locations := locations }
  let title :=
    match truthyStr inputSummary.2 with
    | some c => toolName ++ ": " ++ c
    | none => toolName
  let startContent :=
    match truthyStr inputSummary.1 with
    | some t => [ToolCallContent.contentText t]
    | none => []
  let snaps₂ :=
    match extractPathFromArgs args with
    | some p => snapshotFile fs s.toolCallSnapshots s.cwd toolCallId p
    | none => s.toolCallSnapshots
  ({ s with toolCallInputs := inputs₂, toolCallSnapshots := snaps₂ },
   SessionUpdateMsg.toolCall toolCallId title (mapToolKind toolName) "pending"
     locations startContent)

/-- SessionToolHandler.handleUpdate: re-emit the stored input summary
plus any streamed text, status in_progress; no state change. -/
def handleUpdate (s : SessionState) (toolCallId : String) (partResult : Option ToolResult) :
    SessionUpdateMsg :=
  let storedInput := alookup s.toolCallInputs toolCallId
  let contentText := extractToolContent partResult
  let content := buildToolCallContent (storedInput.bind (fun i => i.summary)) contentText
    none (storedInput.bind (fun i => i.command))
  SessionUpdateMsg.toolCallUpdate toolCallId "in_progress" content

/-- SessionToolHandler.handleEnd: consume the stored input, build the
final labelled content, append a diff section when buildDiffContent
produces one, and emit status failed or completed. -/
def handleEnd (fs : String → Option String) (s : SessionState)
    (toolCallId : String) (result : Option ToolResult) (isError : Bool) :
    SessionState × SessionUpdateMsg :=
  let storedInput := alookup s.toolCallInputs toolCallId
  let inputs₂ := aerase s.toolCallInputs toolCallId
  let contentText := extractToolContent result
  let detailsText := formatToolDetails result
  let dc := buildDiffContent fs s.toolCallSnapshots toolCallId
  let content₀ := buildToolCallContent (storedInput.bind (fun i => i.summary)) contentText
    detailsText (storedInput.bind (fun i => i.command))
  let content :=
    content₀ ++ (match dc.2 with
                 | some d => [d]
                 | none => [])
  ({ s with toolCallInputs := inputs₂, toolCallSnapshots := dc.1 },
   SessionUpdateMsg.toolCallUpdate toolCallId (if isError then "failed" else "completed")
     content)

/-! ## Session Runtime / Event Router (core/runtime/runtime.ts) -/

/-- SessionRuntime.resolvePendingPrompt: when a prompt is pending,
invoke its resolve callback with the stop reason and clear the slot;
otherwise do nothing. -/
def resolvePendingPrompt (s : SessionState) (stopReason : StopReason) : SessionState :=
  if s.pendingPrompt then
    { s with resolutions := s.resolutions ++ [stopReason], pendingPrompt := false }
  else s

/-- SessionRuntime.handlePiLine: route one subprocess line. A response
line is only logged on failure; message_update streams text or thinking
deltas; tool events delegate to the tool handler; turn_end resolves a
pending prompt with the mapped stop reason of the turn (and triggers a
fire-and-forget stats report, a pure emission not modelled); agent_end
resolves a pending prompt with end_turn; everything else falls through
the default case. -/
def handlePiLine (fs : String → Option String) (s : SessionState) (line : PiLine) :
    SessionState × List SessionUpdateMsg :=
  match line with
  | PiLine.response _ => (s, [])
  | PiLine.message_update e =>
      match e with
      | none => (s, [])
      | some (AssistantMessageEvent.text_delta d) =>
          (s, [SessionUpdateMsg.chunk "agent_message_chunk" d])
      | some (AssistantMessageEvent.thinking_delta d) =>
          (s, [SessionUpdateMsg.chunk "agent_thought_chunk" d])
      | some AssistantMessageEvent.otherKind => (s, [])
  | PiLine.tool_execution_start toolCallId toolName args =>
      let r := handleStart fs s toolCallId toolName args
      (r.1, [r.2])
  | PiLine.tool_execution_update toolCallId partResult =>
      (s, [handleUpdate s toolCallId partResult])
  | PiLine.tool_execution_end toolCallId _toolName result isError =>
      let r := handleEnd fs s toolCallId result isError
      (r.1, [r.2])
  | PiLine.turn_end stopReason =>
      (if s.pendingPrompt then resolvePendingPrompt s (mapStopReason stopReason) else s, [])
  | PiLine.agent_end => (resolvePendingPrompt s StopReason.end_turn, [])
  | PiLine.turn_start => (s, [])
  | PiLine.otherEvent _ => (s, [])

/-- Process the lines of one session in arrival order. -/
def runLines (fs : String → Option String) (s : SessionState) : List PiLine → SessionState
  | [] => s
  | l :: ls => runLines fs (handlePiLine fs s l).1 ls


theorem buildToolCallContent_no_diff (a b c d : Option String) (p o n : String) :
    ToolCallContent.diff p o n ∉ buildToolCallContent a b c d := by
  unfold buildToolCallContent
  split
  · simp
  · simp

theorem buildDiffContent_removes (fs : String → Option String)
    (snaps : List (String × Snapshot)) (toolCallId : String) :
    alookup (buildDiffContent fs snaps toolCallId).1 toolCallId = none := by
  unfold buildDiffContent
  cases hsnap : alookup snaps toolCallId with
  | none => simpa using hsnap
  | some snapshot =>
      cases hread : fs snapshot.path with
      | none =>
          simp only [hread]
          exact alookup_aerase_self snaps toolCallId
      | some newText =>
          simp only [hread]
          by_cases he : snapshot.oldText = newText
          · rw [if_pos he]
            exact alookup_aerase_self snaps toolCallId
          · rw [if_neg he]
            exact alookup_aerase_self snaps toolCallId

theorem buildDiffContent_some_iff (fs : String → Option String)
    (snaps : List (String × Snapshot)) (toolCallId : String) :
    (∃ p o n, (buildDiffContent fs snaps toolCallId).2 = some (ToolCallContent.diff p o n)) ↔
      (∃ snap newText, alookup snaps toolCallId = some snap ∧
        fs snap.path = some newText ∧ newText ≠ snap.oldText) := by
  unfold buildDiffContent
  cases hsnap : alookup snaps toolCallId with
  | none => simp
  | some snapshot =>
      cases hread : fs snapshot.path with
      | none => simp [hread]
      | some newText =>
          simp only [hread]
          by_cases he : snapshot.oldText = newText
          · rw [if_pos he]
            simp only [hsnap]
            constructor
            · rintro ⟨p, o, n, hc⟩
              cases hc
            · rintro ⟨snap, nt, hs, hf, hne⟩
              rw [Option.some_inj] at hs
              subst hs
              rw [hread, Option.some_inj] at hf
              subst hf
              exact (hne he.symm).elim
          · rw [if_neg he]
            simp only [hsnap]
            constructor
            · intro _
              exact ⟨snapshot, newText, rfl, hread, fun hc => he hc.symm⟩
            · intro _
              exact ⟨snapshot.path, snapshot.oldText, newText, rfl⟩

theorem buildDiffContent_shape (fs : String → Option String)
    (snaps : List (String × Snapshot)) (toolCallId : String) :
    (buildDiffContent fs snaps toolCallId).2 = none ∨
    ∃ p o n, (buildDiffContent fs snaps toolCallId).2 = some (ToolCallContent.diff p o n) := by
  unfold buildDiffContent
  cases hsnap : alookup snaps toolCallId with
  | none => simp
  | some snapshot =>
      cases hread : fs snapshot.path with
      | none => simp [hread]
      | some newText =>
          simp only [hread]
          by_cases he : snapshot.oldText = newText
          · rw [if_pos he]
            simp
          · rw [if_neg he]
            right
            exact ⟨snapshot.path, snapshot.oldText, newText, rfl⟩

theorem handleEnd_content (fs : String → Option String) (s : SessionState)
    (toolCallId : String) (result : Option ToolResult) (isError : Bool) :
    msgContent (handleEnd fs s toolCallId result isError).2
      = buildToolCallContent ((alookup s.toolCallInputs toolCallId).bind (fun i => i.summary))
          (extractToolContent result) (formatToolDetails result)
          ((alookup s.toolCallInputs toolCallId).bind (fun i => i.command))
        ++ (match (buildDiffContent fs s.toolCallSnapshots toolCallId).2 with
            | some d => [d]
            | none => []) := rfl

theorem handleEnd_snaps (fs : String → Option String) (s : SessionState)
    (toolCallId : String) (result : Option ToolResult) (isError : Bool) :
    (handleEnd fs s toolCallId result isError).1.toolCallSnapshots
      = (buildDiffContent fs s.toolCallSnapshots toolCallId).1 := rfl

theorem handleEnd_inputs (fs : String → Option String) (s : SessionState)
    (toolCallId : String) (result : Option ToolResult) (isError : Bool) :
    (handleEnd fs s toolCallId result isError).1.toolCallInputs
      = aerase s.toolCallInputs toolCallId := rfl

/-- C4: for a tool-end on some tool-call id, the outward payload
contains a diff section iff a pre-tool snapshot was captured for that id
and the post-tool re-read of the file succeeds with text that differs
from the snapshot text; identical text or a failed re-read yields no
diff section, and the snapshot map entry (and the stored input entry)
for the id is removed in every case. -/
theorem c4_tool_end_diff (fs : String → Option String) (s : SessionState)
    (toolCallId : String) (result : Option ToolResult) (isError : Bool) :
    ((∃ p o n, ToolCallContent.diff p o n
        ∈ msgContent (handleEnd fs s toolCallId result isError).2) ↔
      (∃ snap newText, alookup s.toolCallSnapshots toolCallId = some snap ∧
        fs snap.path = some newText ∧ newText ≠ snap.oldText)) ∧
    alookup (handleEnd fs s toolCallId result isError).1.toolCallSnapshots toolCallId = none ∧
    alookup (handleEnd fs s toolCallId result isError).1.toolCallInputs toolCallId = none := by
  refine ⟨?_, ?_, ?_⟩
  · rw [← buildDiffContent_some_iff fs s.toolCallSnapshots toolCallId]
    rw [handleEnd_content]
    rcases buildDiffContent_shape fs s.toolCallSnapshots toolCallId with hnone | ⟨p, o, n, hsome⟩
    · simp only [hnone, List.append_nil]
      constructor
      · rintro ⟨p, o, n, hmem⟩
        exact absurd hmem (buildToolCallContent_no_diff _ _ _ _ p o n)
      · rintro ⟨p, o, n, hc⟩
        cases hc
    · simp only [hsome]
      constructor
      · intro _
        exact ⟨p, o, n, rfl⟩
      · intro _
        refine ⟨p, o, n, ?_⟩
        simp
  · rw [handleEnd_snaps]
    exact buildDiffContent_removes fs s.toolCallSnapshots toolCallId
  · rw [handleEnd_inputs]
    exact alookup_aerase_self _ _

theorem handleStart_pending (fs : String → Option String) (s : SessionState)
    (a b : String) (c : Option ToolArgs) :
    (handleStart fs s a b c).1.pendingPrompt = s.pendingPrompt ∧
    (handleStart fs s a b c).1.resolutions = s.resolutions := ⟨rfl, rfl⟩

theorem handleEnd_pending (fs : String → Option String) (s : SessionState)
    (a : String) (r : Option ToolResult) (e : Bool) :
    (handleEnd fs s a r e).1.pendingPrompt = s.pendingPrompt ∧
    (handleEnd fs s a r e).1.resolutions = s.resolutions := ⟨rfl, rfl⟩

theorem handlePiLine_pending_step (fs : String → Option String) (s : SessionState) (l : PiLine) :
    ((handlePiLine fs s l).1.pendingPrompt = s.pendingPrompt ∧
     (handlePiLine fs s l).1.resolutions = s.resolutions) ∨
    (s.pendingPrompt = true ∧ (handlePiLine fs s l).1.pendingPrompt = false ∧
     ∃ r, (handlePiLine fs s l).1.resolutions = s.resolutions ++ [r]) := by
  cases l with
  | response r => exact Or.inl ⟨rfl, rfl⟩
  | message_update e =>
      cases e with
      | none => exact Or.inl ⟨rfl, rfl⟩
      | some ev => cases ev <;> exact Or.inl ⟨rfl, rfl⟩
  | tool_execution_start a b c => exact Or.inl (handleStart_pending fs s a b c)
  | tool_execution_update a b => exact Or.inl ⟨rfl, rfl⟩
  | tool_execution_end a b c d => exact Or.inl (handleEnd_pending fs s a c d)
  | turn_start => exact Or.inl ⟨rfl, rfl⟩
  | otherEvent t => exact Or.inl ⟨rfl, rfl⟩
  | turn_end sr =>
      by_cases hp : s.pendingPrompt
      · refine Or.inr ⟨hp, ?_, mapStopReason sr, ?_⟩
        · simp [handlePiLine, resolvePendingPrompt, hp]
        · simp [handlePiLine, resolvePendingPrompt, hp]
      · left
        simp [handlePiLine, resolvePendingPrompt, hp]
  | agent_end =>
      by_cases hp : s.pendingPrompt
      · refine Or.inr ⟨hp, ?_, StopReason.end_turn, ?_⟩
        · simp [handlePiLine, resolvePendingPrompt, hp]
        · simp [handlePiLine, resolvePendingPrompt, hp]
      · left
        simp [handlePiLine, resolvePendingPrompt, hp]

theorem handlePiLine_not_pending (fs : String → Option String) (s : SessionState) (l : PiLine)
    (h : s.pendingPrompt = false) :
    (handlePiLine fs s l).1.pendingPrompt = false ∧
    (handlePiLine fs s l).1.resolutions = s.resolutions := by
  rcases handlePiLine_pending_step fs s l with ⟨h₁, h₂⟩ | ⟨h₁, h₂, r, h₃⟩
  · exact ⟨h₁.trans h, h₂⟩
  · rw [h] at h₁
    cases h₁

theorem runLines_not_pending (fs : String → Option String) (ls : List PiLine)
    (s : SessionState) (h : s.pendingPrompt = false) :
    (runLines fs s ls).pendingPrompt = false ∧
    (runLines fs s ls).resolutions = s.resolutions := by
  induction ls generalizing s with
  | nil => exact ⟨h, rfl⟩
  | cons l ls ih =>
      have h₁ := handlePiLine_not_pending fs s l h
      have h₂ := ih _ h₁.1
      exact ⟨h₂.1, h₂.2.trans h₁.2⟩

/-- The number of resolve calls the current pending operation can still
absorb, plus those already recorded. -/
def pendingBound (s : SessionState) : Nat :=
  s.resolutions.length + (if s.pendingPrompt then 1 else 0)

theorem handlePiLine_bound (fs : String → Option String) (s : SessionState) (l : PiLine) :
    pendingBound (handlePiLine fs s l).1 ≤ pendingBound s := by
  rcases handlePiLine_pending_step fs s l with ⟨h₁, h₂⟩ | ⟨h₁, h₂, r, h₃⟩
  · simp [pendingBound, h₁, h₂]
  · simp [pendingBound, h₁, h₂, h₃]

theorem runLines_bound (fs : String → Option String) (ls : List PiLine) (s : SessionState) :
    pendingBound (runLines fs s ls) ≤ pendingBound s := by
  induction ls generalizing s with
  | nil => exact Nat.le_refl _
  | cons l ls ih => exact (ih _).trans (handlePiLine_bound fs s l)

/-- File system with no readable files; used for concrete scenarios. -/
def c1fs : String → Option String := fun _ => none

/-- A session with a pending prompt that has not been resolved yet. -/
def c1session : SessionState :=
  { initSessionState "s1" "/work" with pendingPrompt := true }

/-- C1 counterexample: from a session whose pending operation is
unresolved, handling a single turn_end event (no agent_end, no error,
no cancel) already invokes the pending resolve callback, with the mapped
stop reason of the turn, and clears the slot — refuting the claim that
only agent_end, an unrecoverable process error or an explicit cancel can
resolve the pending operation. -/
theorem c1_turn_end_resolves_counterexample :
    (handlePiLine c1fs c1session (PiLine.turn_end (some "stop"))).1.resolutions
      = [StopReason.end_turn] ∧
    (handlePiLine c1fs c1session (PiLine.turn_end (some "stop"))).1.pendingPrompt = false ∧
    c1session.resolutions = [] :=
  ⟨rfl, rfl, rfl⟩

/-- C1 (amended): handling turn_end while an operation is pending
resolves it at once with the turn's mapped stop reason; consequently, in
the scenario of a turn_end followed by any further events (for example a
second turn_start and turn_end pair and then agent_end), the pending
operation is resolved exactly once, at the first turn_end rather than at
agent_end; over any event sequence at most one resolution occurs. -/
theorem c1_turn_end_resolution (fs : String → Option String) (s : SessionState)
    (sr : Option String) (ls ls₂ : List PiLine)
    (hp : s.pendingPrompt = true) (hr : s.resolutions = []) :
    (handlePiLine fs s (PiLine.turn_end sr)).1.resolutions = [mapStopReason sr] ∧
    (handlePiLine fs s (PiLine.turn_end sr)).1.pendingPrompt = false ∧
    (runLines fs s (PiLine.turn_end sr :: ls)).resolutions = [mapStopReason sr] ∧
    (runLines fs s ls₂).resolutions.length ≤ 1 := by
  have hstep : (handlePiLine fs s (PiLine.turn_end sr)).1
      = { s with resolutions := s.resolutions ++ [mapStopReason sr], pendingPrompt := false } := by
    simp [handlePiLine, resolvePendingPrompt, hp]
  refine ⟨?_, ?_, ?_, ?_⟩
  · rw [hstep]
    simp [hr]
  · rw [hstep]
  · show (runLines fs (handlePiLine fs s (PiLine.turn_end sr)).1 ls).resolutions = _
    rw [hstep]
    have h₂ := runLines_not_pending fs ls
      { s with resolutions := s.resolutions ++ [mapStopReason sr], pendingPrompt := false } rfl
    rw [h₂.2]
    simp [hr]
  · have h₁ : (runLines fs s ls₂).resolutions.length ≤ pendingBound (runLines fs s ls₂) :=
      Nat.le_add_right _ _
    have h₂ := runLines_bound fs ls₂ s
    have h₃ : pendingBound s = 1 := by simp [pendingBound, hp, hr]
    exact h₁.trans (h₂.trans_eq h₃)

/-- C1 witness: the amended behaviour at the concrete scenario, with the
pending operation resolved at the first turn_end and the whole sequence
turn_end, turn_start, turn_end, agent_end producing one resolution. -/
theorem c1_turn_end_resolution_witness :
    (handlePiLine c1fs c1session (PiLine.turn_end (some "stop"))).1.resolutions
      = [mapStopReason (some "stop")] ∧
    (handlePiLine c1fs c1session (PiLine.turn_end (some "stop"))).1.pendingPrompt = false ∧
    (runLines c1fs c1session (PiLine.turn_end (some "stop")
        :: [PiLine.turn_start, PiLine.turn_end (some "stop"), PiLine.agent_end])).resolutions
      = [mapStopReason (some "stop")] ∧
    (runLines c1fs c1session [PiLine.turn_end (some "stop"), PiLine.turn_start,
        PiLine.turn_end (some "stop"), PiLine.agent_end]).resolutions.length ≤ 1 :=
  c1_turn_end_resolution c1fs c1session (some "stop")
    [PiLine.turn_start, PiLine.turn_end (some "stop"), PiLine.agent_end]
    [PiLine.turn_end (some "stop"), PiLine.turn_start, PiLine.turn_end (some "stop"),
      PiLine.agent_end]
    rfl rfl

/-! ## Session Manager (core/session/manager.ts)

Subprocess request round trips are modelled by Bool oracles for the
success flags of the responses; persisted-map and directory-scan file
system state are modelled as association lists passed in. A thrown
Error is an Except.error carrying the message, returned before any of
the state changes the remaining code would make. -/

/-- An ACP prompt content block, as consumed by buildPrompt and
inferTitleFromPrompt. -/
inductive ContentBlock where
  | text (t : String)
  | resource (uri : String) (text : Option String)
  | resource_link (uri : String) (name : String)
  | image (mimeType : String) (data : String)
  deriving DecidableEq, Repr

/-- The per-block text used by SessionRuntime.buildPrompt. -/
def blockToText : ContentBlock → String
  | ContentBlock.text t => t
  | ContentBlock.resource uri text => "\n[resource:" ++ uri ++ "]\n" ++ text.getD ""
  | ContentBlock.resource_link uri name => "\n[resource_link:" ++ uri ++ "] " ++ name
  | ContentBlock.image _ _ => ""

/-- SessionRuntime.buildPrompt, message part: block texts with falsy
entries dropped, joined by newlines. -/
def buildPromptMessage (blocks : List ContentBlock) : String :=
  String.intercalate "\n" ((blocks.map blockToText).filter (fun t => t ≠ ""))

/-- SessionRuntime.buildPrompt, image part: the number of image blocks
collected for the subprocess payload. -/
def buildPromptImages (blocks : List ContentBlock) : Nat :=
  (blocks.filter (fun b =>
    match b with
    | ContentBlock.image _ _ => true
    | _ => false)).length

/-- Title truncation from inferTitleFromPrompt: over 160 characters is
cut at 159, trimmed, and given an ellipsis. -/
def truncateTitle (trimmed : String) : String :=
  if trimmed.length > 160 then (trimmed.take 159).trim ++ "…" else trimmed

/-- inferTitleFromPrompt (core/session/manager.ts): first non-blank text
of a text block or of an embedded resource, truncated. -/
def inferTitleFromPrompt : List ContentBlock → Option String
  | [] => none
  | ContentBlock.text t :: rest =>
      let trimmed := t.trim
      if trimmed ≠ "" then some (truncateTitle trimmed) else inferTitleFromPrompt rest
  | ContentBlock.resource _ text :: rest =>
      (match text with
       | some tx =>
           let trimmed := tx.trim
           if trimmed ≠ "" then some (truncateTitle trimmed) else inferTitleFromPrompt rest
       | none => inferTitleFromPrompt rest)
  | _ :: rest => inferTitleFromPrompt rest

/-- The live-session map owned by the SessionManager. -/
structure ManagerState where
  sessions : List (String × SessionState)
  deriving DecidableEq, Repr

/-- SessionManager.getSession: the live session for the id, or a thrown
Unknown session error. -/
def getSession (m : ManagerState) (sessionId : String) : Except String SessionState :=
  match alookup m.sessions sessionId with
  | none => Except.error ("Unknown session: " ++ sessionId)
  | some s => Except.ok s

/-- SessionManager.cancel: an unknown id returns silently; otherwise an
abort command is sent to the subprocess and, if an operation is pending,
its resolve callback is invoked with cancelled and the slot cleared —
all without consuming any subprocess response. -/
def cancel (m : ManagerState) (sessionId : String) : ManagerState :=
  match alookup m.sessions sessionId with
  | none => m
  | some session =>
      let session₂ := { session with sent := session.sent ++ [PiCommand.abort] }
      let session₃ :=
        if session₂.pendingPrompt then
          { session₂ with
            resolutions := session₂.resolutions ++ [StopReason.cancelled],
            pendingPrompt := false }
        else session₂
      { m with sessions := aset m.sessions sessionId session₃ }

/-- The two non-error outcomes of SessionManager.prompt. -/
inductive PromptOutcome where
  | slashHandled
  | promptPending
  deriving DecidableEq, Repr

/-- SessionManager.prompt up to the installation of the pending
operation: reject unknown sessions; reject when an operation is already
pending; short-circuit handled slash commands (the slash dispatch
outcome is the oracle `isSlash`); otherwise infer a title when none is
set, send the prompt command and fill the pending slot. The heartbeat
interval and its session_info_update emissions are timer effects not
modelled. -/
def promptCall (m : ManagerState) (sessionId : String) (isSlash : Bool)
    (blocks : List ContentBlock) : Except String (ManagerState × PromptOutcome) :=
  match alookup m.sessions sessionId with
  | none => Except.error ("Unknown session: " ++ sessionId)
  | some session =>
      if session.pendingPrompt then Except.error "Prompt already in progress"
      else if isSlash then Except.ok (m, PromptOutcome.slashHandled)
      else
        let message := buildPromptMessage blocks
        let imageCount := buildPromptImages blocks
        let inferredTitle :=
          match session.title with
          | some t => some t
          | none => inferTitleFromPrompt blocks
        let session₂ :=
          match inferredTitle with
          | some t => if session.title ≠ some t then { session with title := some t } else session
          | none => session
        let session₃ :=
          { session₂ with
            sent := session₂.sent ++ [PiCommand.promptMsg message imageCount],
            pendingPrompt := true }
        Except.ok ({ m with sessions := aset m.sessions sessionId session₃ },
          PromptOutcome.promptPending)

/-- resolveModelId (core/config/config.ts): an exact encoded key, else a
colon pair, else a slash pair, else a bare id matched against any known
model. -/
def resolveModelId (session : SessionState) (modelId : String) : Option PiModel :=
  match alookup session.modelMap modelId with
  | some direct => some direct
  | none =>
      match modelId.splitOn ":" with
      | p :: r :: rest =>
          some { id := String.intercalate ":" (r :: rest),
                 name := String.intercalate ":" (r :: rest), provider := p, reasoning := false }
      | _ =>
          match modelId.splitOn "/" with
          | q :: r :: rest =>
              some { id := String.intercalate "/" (r :: rest),
                     name := String.intercalate "/" (r :: rest), provider := q, reasoning := false }
          | _ => (session.modelMap.find? (fun pr => pr.2.id == modelId)).map Prod.snd

/-- SessionManager.setModel: look up the session, resolve the model id,
send set_model to the subprocess and fail when the response fails (the
success flag is the oracle `respondOk`; the subsequent config re-fetch
and re-broadcast are subprocess round trips not modelled further). -/
def setModel (m : ManagerState) (sessionId modelId : String) (respondOk : Bool) :
    Except String ManagerState :=
  match alookup m.sessions sessionId with
  | none => Except.error ("Unknown session: " ++ sessionId)
  | some session =>
      match resolveModelId session modelId with
      | none => Except.error ("Unknown model: " ++ modelId)
      | some resolved =>
          let session₂ := { session with
            sent := session.sent ++ [PiCommand.set_model resolved.provider resolved.id] }
          if respondOk then
            Except.ok { m with sessions := aset m.sessions sessionId session₂ }
          else Except.error "Failed to set model"

/-- Shared body of the config option actions: send the translated
command, fail with the label when the response fails. -/
def sendConfigCommand (m : ManagerState) (sessionId : String) (session : SessionState)
    (cmd : PiCommand) (respondOk : Bool) (failMsg : String) : Except String ManagerState :=
  let session₂ := { session with sent := session.sent ++ [cmd] }
  if respondOk then Except.ok { m with sessions := aset m.sessions sessionId session₂ }
  else Except.error failMsg

/-- SessionManager.setConfigOption: look up the session, then dispatch
on the fixed set of recognized config option identifiers; unknown
options are rejected. -/
def setConfigOption (m : ManagerState) (sessionId configId value : String)
    (respondOk : Bool) : Except String ManagerState :=
  match alookup m.sessions sessionId with
  | none => Except.error ("Unknown session: " ++ sessionId)
  | some session =>
      if configId = "thinking_level" ∨ configId = "reasoning_effort" then
        sendConfigCommand m sessionId session (PiCommand.set_thinking_level value) respondOk
          "Failed to set thinking level"
      else if configId = "steering_mode" then
        sendConfigCommand m sessionId session (PiCommand.set_steering_mode value) respondOk
          "Failed to set steering mode"
      else if configId = "follow_up_mode" then
        sendConfigCommand m sessionId session (PiCommand.set_follow_up_mode value) respondOk
          "Failed to set follow-up mode"
      else if configId = "auto_compaction" then
        sendConfigCommand m sessionId session (PiCommand.set_auto_compaction (value = "on"))
          respondOk "Failed to set auto compaction"
      else if configId = "auto_retry" then
        sendConfigCommand m sessionId session (PiCommand.set_auto_retry (value = "on"))
          respondOk "Failed to set auto retry"
      else if configId = "model" then setModel m sessionId value respondOk
      else Except.error ("Unknown config option: " ++ configId)

/-- SessionManager.resolveSessionPath: the live session's captured file
first, then the persisted id-to-path map, then the directory scan. The
merge of newly scanned entries back into the persisted map does not
affect the resolved value and is not modelled. -/
def resolveSessionPath (m : ManagerState) (persistedMap scannedMap : List (String × String))
    (sessionId : String) : Option String :=
  match (alookup m.sessions sessionId).bind (fun a => a.sessionFile) with
  | some p => some p
  | none =>
      match alookup persistedMap sessionId with
      | some p => some p
      | none => alookup scannedMap sessionId

/-- SessionManager.loadSession head: resolve the transcript path or
throw Unknown session; only then spawn a subprocess, bind it to the
transcript with a switch_session request (success flag `switchOk`) and
register the live session. History replay follows and is not modelled. -/
def loadSession (m : ManagerState) (persistedMap scannedMap : List (String × String))
    (sessionId cwd : String) (switchOk : Bool) : Except String ManagerState :=
  match resolveSessionPath m persistedMap scannedMap sessionId with
  | none => Except.error ("Unknown session: " ++ sessionId)
  | some sessionPath =>
      let state := { initSessionState sessionId cwd with
        sessionFile := some sessionPath,
        sent := [PiCommand.switch_session sessionPath] }
      if switchOk then Except.ok { m with sessions := aset m.sessions sessionId state }
      else Except.error "Failed to switch session"

/-- C2: while a session's pending-operation slot is filled, prompt
always throws Prompt already in progress; the error is raised before the
slash dispatch, the title inference, and the send of the prompt command,
so the pending operation is untouched and nothing reaches the
subprocess. -/
theorem c2_second_prompt_rejected (m : ManagerState) (sessionId : String)
    (session : SessionState) (isSlash : Bool) (blocks : List ContentBlock)
    (hs : alookup m.sessions sessionId = some session)
    (hp : session.pendingPrompt = true) :
    promptCall m sessionId isSlash blocks = Except.error "Prompt already in progress" := by
  unfold promptCall
  rw [hs]
  simp [hp]

/-- A manager owning the single pending session used by the concrete
scenarios. -/
def c2manager : ManagerState := { sessions := [("s1", c1session)] }

/-- C2 witness: the rejection at a concrete manager whose session s1 has
a pending operation. -/
theorem c2_second_prompt_rejected_witness :
    promptCall c2manager "s1" false [ContentBlock.text "hi"]
      = Except.error "Prompt already in progress" :=
  c2_second_prompt_rejected c2manager "s1" c1session false [ContentBlock.text "hi"] rfl rfl

/-- C3: cancelling a session with a pending operation appends exactly
one abort command for the subprocess and invokes the pending resolve
callback exactly once, with cancelled, clearing the slot in the same
step — no subprocess response is consumed, so nothing is awaited; and
any events the subprocess emits afterwards find the slot cleared and
leave the recorded resolutions unchanged. -/
theorem c3_cancel_resolves_once (m : ManagerState) (sessionId : String)
    (session : SessionState) (fs : String → Option String) (ls : List PiLine)
    (hs : alookup m.sessions sessionId = some session)
    (hp : session.pendingPrompt = true) :
    alookup (cancel m sessionId).sessions sessionId
      = some { session with
          sent := session.sent ++ [PiCommand.abort],
          resolutions := session.resolutions ++ [StopReason.cancelled],
          pendingPrompt := false } ∧
    (runLines fs { session with
          sent := session.sent ++ [PiCommand.abort],
          resolutions := session.resolutions ++ [StopReason.cancelled],
          pendingPrompt := false } ls).resolutions
      = session.resolutions ++ [StopReason.cancelled] := by
  constructor
  · unfold cancel
    rw [hs]
    simp only [hp]
    exact alookup_aset_self _ _ _
  · have h₂ := runLines_not_pending fs ls
      { session with
          sent := session.sent ++ [PiCommand.abort],
          resolutions := session.resolutions ++ [StopReason.cancelled],
          pendingPrompt := false } rfl
    exact h₂.2

/-- C3 witness: cancel on the concrete pending session, with the
subprocess still emitting an agent_end and a turn_end afterwards. -/
theorem c3_cancel_resolves_once_witness :
    alookup (cancel c2manager "s1").sessions "s1"
      = some { c1session with
          sent := c1session.sent ++ [PiCommand.abort],
          resolutions := c1session.resolutions ++ [StopReason.cancelled],
          pendingPrompt := false } ∧
    (runLines c1fs { c1session with
          sent := c1session.sent ++ [PiCommand.abort],
          resolutions := c1session.resolutions ++ [StopReason.cancelled],
          pendingPrompt := false }
        [PiLine.agent_end, PiLine.turn_end (some "aborted")]).resolutions
      = c1session.resolutions ++ [StopReason.cancelled] :=
  c3_cancel_resolves_once c2manager "s1" c1session c1fs
    [PiLine.agent_end, PiLine.turn_end (some "aborted")] rfl rfl

/-- C9: a session id with no live session, no entry in the persisted
id-to-path map and no match in the directory scan makes loadSession
throw Unknown session; the error return precedes the spawn and the
switch_session request, so no subprocess is bound to a transcript. -/
theorem c9_unknown_session_load (m : ManagerState)
    (persistedMap scannedMap : List (String × String)) (sessionId cwd : String)
    (switchOk : Bool)
    (h₁ : alookup m.sessions sessionId = none)
    (h₂ : alookup persistedMap sessionId = none)
    (h₃ : alookup scannedMap sessionId = none) :
    loadSession m persistedMap scannedMap sessionId cwd switchOk
      = Except.error ("Unknown session: " ++ sessionId) := by
  unfold loadSession resolveSessionPath
  simp [h₁, h₂, h₃]

/-- C9 witness: loading the id nonexistent with no live sessions, an
empty persisted map and an empty transcript directory. -/
theorem c9_unknown_session_load_witness :
    loadSession { sessions := [] } [] [] "nonexistent" "/work" true
      = Except.error ("Unknown session: " ++ "nonexistent") :=
  c9_unknown_session_load { sessions := [] } [] [] "nonexistent" "/work" true rfl rfl rfl

/-- C10: cancel with an id that is not in the live-session map is a
silent no-op returning the manager unchanged (so no abort is sent and no
session state is touched), while prompt, setModel and setConfigOption
all throw Unknown session for the same id. -/
theorem c10_unknown_session_contrast (m : ManagerState) (sessionId : String)
    (isSlash : Bool) (blocks : List ContentBlock) (modelId configId value : String)
    (respondOk : Bool)
    (h : alookup m.sessions sessionId = none) :
    cancel m sessionId = m ∧
    promptCall m sessionId isSlash blocks
      = Except.error ("Unknown session: " ++ sessionId) ∧
    setModel m sessionId modelId respondOk
      = Except.error ("Unknown session: " ++ sessionId) ∧
    setConfigOption m sessionId configId value respondOk
      = Except.error ("Unknown session: " ++ sessionId) := by
  refine ⟨?_, ?_, ?_, ?_⟩
  · unfold cancel
    rw [h]
  · unfold promptCall
    rw [h]
  · unfold setModel
    rw [h]
  · unfold setConfigOption
    rw [h]

/-- C10 witness: the contrast at a concrete manager with no sessions. -/
theorem c10_unknown_session_contrast_witness :
    cancel { sessions := [] } "nope" = { sessions := [] } ∧
    promptCall { sessions := [] } "nope" false []
      = Except.error ("Unknown session: " ++ "nope") ∧
    setModel { sessions := [] } "nope" "openai:gpt-5" true
      = Except.error ("Unknown session: " ++ "nope") ∧
    setConfigOption { sessions := [] } "nope" "auto_compaction" "on" true
      = Except.error ("Unknown session: " ++ "nope") :=
  c10_unknown_session_contrast { sessions := [] } "nope" false [] "openai:gpt-5"
    "auto_compaction" "on" true rfl

/-! ## Transcript fork (core/session/metadata.ts)

A transcript file is newline-delimited JSON; blank lines are filtered
out before parsing both by createForkedSessionFile and by
readSessionInfo, so the file is modelled as its list of parsed entries:
the session header record and the typed entries after it. -/

/-- The session header record: the first line of a transcript file. -/
structure SessionHeader where
  id : String
  version : Option Nat
  timestamp : String
  cwd : String
  parentSession : Option String
  deriving DecidableEq, Repr

/-- One parsed line of a transcript file. -/
inductive TranscriptEntry where
  | headerEntry (h : SessionHeader)
  | message (payload : String)
  | otherEntry (ty : String) (payload : String)
  deriving DecidableEq, Repr

/-- createForkedSessionFile (core/session/metadata.ts): reject an empty
source or a source whose first line is not a session header; otherwise
write a new file whose first line is a freshly generated header — new
session id, current timestamp, the target working directory, the source
version (defaulting to 3) and a parentSession reference to the source
path — followed by every line of the source after its header, unchanged
and in order. The fresh id and timestamp are passed in (randomUUID and
the clock). -/
def createForkedSessionFile (sourcePath targetCwd : String)
    (sourceLines : List TranscriptEntry) (newId timestamp : String) :
    Except String (List TranscriptEntry) :=
  match sourceLines with
  | [] => Except.error ("Source session is empty: " ++ sourcePath)
  | first :: rest =>
      match first with
      | TranscriptEntry.headerEntry h =>
          Except.ok (TranscriptEntry.headerEntry
            { id := newId, version := some (h.version.getD 3), timestamp := timestamp,
              cwd := targetCwd, parentSession := some sourcePath } :: rest)
      | _ => Except.error ("Invalid session header: " ++ sourcePath)

/-- The message entries of a transcript, in order: the entries counted
and replayed when a session file is loaded (readSessionInfo counts
exactly the entries of type message). -/
def messageEntries (lines : List TranscriptEntry) : List TranscriptEntry :=
  lines.filter (fun e =>
    match e with
    | TranscriptEntry.message _ => true
    | _ => false)

/-- C8: forking a transcript produces a file whose first line is a
fresh header carrying the new session id and a parentSession reference
to the source path, followed by every non-header line of the source
unchanged and in order; hence the forked transcript has exactly the
message entries of the source, so loading the fork reproduces every
message entry. -/
theorem c8_fork_round_trip (sourcePath targetCwd newId timestamp : String)
    (h : SessionHeader) (rest : List TranscriptEntry) :
    createForkedSessionFile sourcePath targetCwd (TranscriptEntry.headerEntry h :: rest)
        newId timestamp
      = Except.ok (TranscriptEntry.headerEntry
          { id := newId, version := some (h.version.getD 3), timestamp := timestamp,
            cwd := targetCwd, parentSession := some sourcePath } :: rest) ∧
    messageEntries (TranscriptEntry.headerEntry
          { id := newId, version := some (h.version.getD 3), timestamp := timestamp,
            cwd := targetCwd, parentSession := some sourcePath } :: rest)
      = messageEntries (TranscriptEntry.headerEntry h :: rest) := by
  constructor
  · rfl
  · simp [messageEntries]

end PiAcp
